import Mathlib

/-!
Shallow embedding of the strategy-testing harness
(`src/tests/framework_stub.py`, `src/tests/test_data_generator.py`,
`src/tests/robustness_tests.py`, `src/tests/code_quality_scorer.py`,
`src/tests/strategy_loader.py`).

Python floats are modelled by `FloatVal` (NaN, the two infinities and a
finite rational); `Optional[float]` becomes `Option FloatVal`; Python
dicts become association lists; Python classes become structures.
-/

namespace Harness

/-- A Python float value: NaN, +inf, -inf, or a finite rational. -/
inductive FloatVal where
  | nan : FloatVal
  | inf : FloatVal
  | ninf : FloatVal
  | finite : ℚ → FloatVal
deriving Repr, DecidableEq

namespace FloatVal

/-- `math.isnan`. -/
def isNan : FloatVal → Bool
  | nan => true
  | _ => false

/-- `math.isinf`. -/
def isInf : FloatVal → Bool
  | inf => true
  | ninf => true
  | _ => false

/-- A float that is neither NaN nor infinite. -/
def isFinite : FloatVal → Bool
  | finite _ => true
  | _ => false

/-- The rational value of a finite float (0 for non-finite ones). -/
def toQ : FloatVal → ℚ
  | finite q => q
  | _ => 0

/-- IEEE-style multiplication on modelled floats (used for the stub's
bid/ask derivation, which multiplies a price by a positive constant). -/
def mul : FloatVal → FloatVal → FloatVal
  | nan, _ => nan
  | _, nan => nan
  | inf, inf => inf
  | inf, ninf => ninf
  | ninf, inf => ninf
  | ninf, ninf => inf
  | inf, finite q => if 0 < q then inf else if q < 0 then ninf else nan
  | finite q, inf => if 0 < q then inf else if q < 0 then ninf else nan
  | ninf, finite q => if 0 < q then ninf else if q < 0 then inf else nan
  | finite q, ninf => if 0 < q then ninf else if q < 0 then inf else nan
  | finite a, finite b => finite (a * b)

end FloatVal

/-- Association list standing for a Python `dict` (insertion order kept,
assignment overwrites the first matching key). -/
def AList (α β : Type) := List (α × β)

namespace AList

/-- `d.get(k)` / `k in d` combined: `some v` when the key is present. -/
def lookup {α β : Type} [DecidableEq α] : AList α β → α → Option β
  | [], _ => none
  | (k, v) :: rest, k' => if k' = k then some v else lookup rest k'

/-- `d[k] = v`. -/
def insert {α β : Type} [DecidableEq α] : AList α β → α → β → AList α β
  | [], k, v => [(k, v)]
  | (k0, v0) :: rest, k, v =>
    if k = k0 then (k0, v) :: rest else (k0, v0) :: insert rest k v

end AList

/-- `framework_stub.BarType`. -/
inductive BarType where
  | D1 | H1 | M1
deriving Repr, DecidableEq

/-- `BarType.value` (the string payload of the Python enum member). -/
def BarType.value : BarType → String
  | .D1 => "D1"
  | .H1 => "H1"
  | .M1 => "M1"

/-- `framework_stub.AlgoStrategyType`. -/
inductive AlgoStrategyType where
  | SECURITY
deriving Repr, DecidableEq

/-- An order record appended by `FrameworkStub.place_limit`. -/
structure Order where
  symbol : String
  price : FloatVal
  qty : Int
  side : String
  time_in_force : String
  order_trade_session_type : String
deriving Repr, DecidableEq

/-- The mutable state of `framework_stub.FrameworkStub`. -/
structure FrameworkStub where
  alerts : List String
  orders : List Order
  declared_strategy_type : Option AlgoStrategyType
  declared_symbols : List String
  price_data : AList String (Option FloatVal)
  position_data : AList String Int
  indicator_data : AList String (AList String (Option FloatVal))
  default_symbol : String
  default_price : ℚ

namespace FrameworkStub

/-- `FrameworkStub.__init__`: everything empty, defaults fixed. -/
def init : FrameworkStub :=
  { alerts := []
    orders := []
    declared_strategy_type := none
    declared_symbols := []
    price_data := []
    position_data := []
    indicator_data := []
    default_symbol := "TEST_SYMBOL"
    default_price := 100 }

/-- `FrameworkStub.reset`: clears all recorded state (the two default
fields are untouched attributes, not cleared). -/
def reset (s : FrameworkStub) : FrameworkStub :=
  { s with
    alerts := []
    orders := []
    declared_strategy_type := none
    declared_symbols := []
    price_data := []
    position_data := []
    indicator_data := [] }

/-- `FrameworkStub.current_price`: the stored price when the symbol key is
present (the stored value may itself be `None`), else the default 100.0. -/
def current_price (s : FrameworkStub) (symbol : String) : Option FloatVal :=
  match s.price_data.lookup symbol with
  | some v => v
  | none => some (.finite s.default_price)

/-- `FrameworkStub.set_price`. -/
def set_price (s : FrameworkStub) (symbol : String) (price : Option FloatVal) :
    FrameworkStub :=
  { s with price_data := s.price_data.insert symbol price }

/-- The key string `f"{symbol}_ma_{period}_{bar_type.value}"`. -/
def maKey (symbol : String) (period : Nat) (bt : BarType) : String :=
  symbol ++ "_ma_" ++ toString period ++ "_" ++ bt.value

/-- The key string `f"{symbol}_rsi_{period}_{bar_type.value}"`. -/
def rsiKey (symbol : String) (period : Nat) (bt : BarType) : String :=
  symbol ++ "_rsi_" ++ toString period ++ "_" ++ bt.value

/-- `FrameworkStub.ma`: the stored indicator entry's `"value"` when the key
is present, else the default 100.0. -/
def ma (s : FrameworkStub) (symbol : String) (period : Nat) (bt : BarType) :
    Option FloatVal :=
  match s.indicator_data.lookup (maKey symbol period bt) with
  | some inner =>
    match inner.lookup "value" with
    | some v => v
    | none => none
  | none => some (.finite 100)

/-- `FrameworkStub.set_ma`: create the inner dict if missing, then assign
its `"value"` entry. -/
def set_ma (s : FrameworkStub) (symbol : String) (period : Nat) (bt : BarType)
    (value : Option FloatVal) : FrameworkStub :=
  let key := maKey symbol period bt
  let inner :=
    match s.indicator_data.lookup key with
    | some inner => inner
    | none => []
  { s with indicator_data := s.indicator_data.insert key (inner.insert "value" value) }

/-- `FrameworkStub.rsi`: the stored indicator entry's `"value"` when the key
is present, else the default 50.0. -/
def rsi (s : FrameworkStub) (symbol : String) (period : Nat) (bt : BarType) :
    Option FloatVal :=
  match s.indicator_data.lookup (rsiKey symbol period bt) with
  | some inner =>
    match inner.lookup "value" with
    | some v => v
    | none => none
  | none => some (.finite 50)

/-- `FrameworkStub.set_rsi`. -/
def set_rsi (s : FrameworkStub) (symbol : String) (period : Nat) (bt : BarType)
    (value : Option FloatVal) : FrameworkStub :=
  let key := rsiKey symbol period bt
  let inner :=
    match s.indicator_data.lookup key with
    | some inner => inner
    | none => []
  { s with indicator_data := s.indicator_data.insert key (inner.insert "value" value) }

/-- `FrameworkStub.position_holding_qty`: stored position, defaulting to 0. -/
def position_holding_qty (s : FrameworkStub) (symbol : String) : Int :=
  match s.position_data.lookup symbol with
  | some q => q
  | none => 0

/-- `FrameworkStub.set_position`. -/
def set_position (s : FrameworkStub) (symbol : String) (qty : Int) :
    FrameworkStub :=
  { s with position_data := s.position_data.insert symbol qty }

/-- `FrameworkStub.bid`: `current_price * 0.999` when the price is not
`None`, else `None`. -/
def bid (s : FrameworkStub) (symbol : String) : Option FloatVal :=
  match s.current_price symbol with
  | some p => some (p.mul (.finite (999 / 1000)))
  | none => none

/-- `FrameworkStub.ask`: `current_price * 1.001` when the price is not
`None`, else `None`. -/
def ask (s : FrameworkStub) (symbol : String) : Option FloatVal :=
  match s.current_price symbol with
  | some p => some (p.mul (.finite (1001 / 1000)))
  | none => none

end FrameworkStub

/-- One scenario case from `test_data_generator.py`: a name plus three
optional float fields. -/
structure TestCase where
  name : String
  price : Option FloatVal
  ma : Option FloatVal
  rsi : Option FloatVal
deriving Repr, DecidableEq

namespace TestDataGenerator

/-- Python `str()` rendering of the optional float values that occur in
the boundary generator's sentinel list. -/
def pyFloatStr : Option FloatVal → String
  | none => "None"
  | some .nan => "nan"
  | some .inf => "inf"
  | some .ninf => "-inf"
  | some (.finite q) =>
    if q = 0 then "0.0"
    else if q = -1 then "-1.0"
    else if q = 10000000000 then "10000000000.0"
    else if q = -10000000000 then "-10000000000.0"
    else if q = 1 / 10000000000 then "1e-10"
    else if q = -1 / 10000000000 then "-1e-10"
    else toString q

/-- The sentinel list `boundary_values` of `get_boundary_test_cases`. -/
def boundary_values : List (Option FloatVal) :=
  [none, some .nan, some .inf, some .ninf,
   some (.finite 0), some (.finite (-1)),
   some (.finite 10000000000), some (.finite (-10000000000)),
   some (.finite (1 / 10000000000)), some (.finite (-(1 / 10000000000)))]

/-- The guard of the `continue` in the cross-product loop: `false` exactly
when the RSI component is a finite number that is negative or above 100
(the combination is then skipped). -/
def rsiMeaningful : Option FloatVal → Bool
  | some (.finite q) => if q < 0 ∨ 100 < q then false else true
  | _ => true

/-- Build one cross-product case, name included. -/
def mkCase (price maVal rsiVal : Option FloatVal) : TestCase :=
  { name := "price=" ++ pyFloatStr price ++ ", ma=" ++ pyFloatStr maVal ++
      ", rsi=" ++ pyFloatStr rsiVal
    price := price
    ma := maVal
    rsi := rsiVal }

/-- The triple-nested cross-product loop of `get_boundary_test_cases`,
with the RSI `continue` guard. -/
def crossCases : List TestCase :=
  boundary_values.flatMap fun price =>
    boundary_values.flatMap fun maVal =>
      (boundary_values.filter rsiMeaningful).map fun rsiVal =>
        mkCase price maVal rsiVal

/-- The fixed `common_cases` list appended after the cross product. -/
def common_cases : List TestCase :=
  [⟨"normal_values", some (.finite 100), some (.finite 95), some (.finite 50)⟩,
   ⟨"price_none", none, some (.finite 95), some (.finite 50)⟩,
   ⟨"ma_none", some (.finite 100), none, some (.finite 50)⟩,
   ⟨"rsi_none", some (.finite 100), some (.finite 95), none⟩,
   ⟨"all_none", none, none, none⟩,
   ⟨"price_nan", some .nan, some (.finite 95), some (.finite 50)⟩,
   ⟨"price_inf", some .inf, some (.finite 95), some (.finite 50)⟩,
   ⟨"price_neg_inf", some .ninf, some (.finite 95), some (.finite 50)⟩,
   ⟨"price_zero", some (.finite 0), some (.finite 95), some (.finite 50)⟩,
   ⟨"price_negative", some (.finite (-10)), some (.finite 95), some (.finite 50)⟩,
   ⟨"ma_nan", some (.finite 100), some .nan, some (.finite 50)⟩,
   ⟨"rsi_nan", some (.finite 100), some (.finite 95), some .nan⟩,
   ⟨"rsi_boundary_0", some (.finite 100), some (.finite 95), some (.finite 0)⟩,
   ⟨"rsi_boundary_100", some (.finite 100), some (.finite 95), some (.finite 100)⟩,
   ⟨"rsi_negative", some (.finite 100), some (.finite 95), some (.finite (-10))⟩,
   ⟨"rsi_over_100", some (.finite 100), some (.finite 95), some (.finite 150)⟩]

/-- `TestDataGenerator.get_boundary_test_cases`: the filtered cross
product followed by the fixed common cases. -/
def get_boundary_test_cases : List TestCase :=
  crossCases ++ common_cases

/-- An abstract pseudorandom source standing for Python's global
`random` module generator (a Mersenne Twister): `seedInit` models
`random.seed` (state is a deterministic function of the seed) and `next`
models `random.random` (a draw in `[0,1)` plus the advanced state). -/
structure RandomGen where
  seedInit : Int → Nat
  next : Nat → ℚ × Nat

/-- `random.uniform(a, b) = a + (b - a) * random.random()`. -/
def uniform (g : RandomGen) (a b : ℚ) (st : Nat) : ℚ × Nat :=
  let p := g.next st
  (a + (b - a) * p.1, p.2)

/-- The body of one iteration of `get_random_test_cases` (Python index
`i` starting at 0; the case is named `random_case_{i+1}`). -/
def genOne (g : RandomGen) (st : Nat) (i : Nat) : TestCase × Nat :=
  let p1 := uniform g 10 1000 st
  let price0 := p1.1
  let p2 := uniform g (4 / 5) (6 / 5) p1.2
  let ma0 := price0 * p2.1
  let p3 := uniform g 0 100 p2.2
  let rsi0 := p3.1
  let d1 := g.next p3.2
  let d2 := g.next d1.2
  let d3 := g.next d2.2
  let d4 := g.next d3.2
  let d5 := g.next d4.2
  let price1 : Option FloatVal :=
    if d1.1 < 1 / 10 then none else some (.finite price0)
  let ma1 : Option FloatVal :=
    if d2.1 < 1 / 10 then none else some (.finite ma0)
  let rsi1 : Option FloatVal :=
    if d3.1 < 1 / 10 then none else some (.finite rsi0)
  let price2 := if d4.1 < 1 / 20 then some FloatVal.nan else price1
  let ma2 := if d5.1 < 1 / 20 then some FloatVal.nan else ma1
  (⟨"random_case_" ++ toString (i + 1), price2, ma2, rsi1⟩, d5.2)

/-- The `for i in range(count)` loop of `get_random_test_cases`. -/
def genCases (g : RandomGen) : Nat → Nat → Nat → List TestCase × Nat
  | st, _, 0 => ([], st)
  | st, i, n + 1 =>
    let p := genOne g st i
    let rest := genCases g p.2 (i + 1) n
    (p.1 :: rest.1, rest.2)

/-- `TestDataGenerator.get_random_test_cases`: reseed when a seed is
given (otherwise the incoming generator state is used as-is), then
generate `count` cases. -/
def get_random_test_cases (g : RandomGen) (count : Nat) (seed : Option Int)
    (st : Nat) : List TestCase × Nat :=
  let st0 := match seed with
    | some s => g.seedInit s
    | none => st
  genCases g st0 0 count

/-- `TestDataGenerator.apply_test_data_to_stub`: price, MA for periods
100/50/20/200/1 on daily bars, RSI for period 14 on daily bars. -/
def apply_test_data_to_stub (stub : FrameworkStub) (symbol : String)
    (tc : TestCase) : FrameworkStub :=
  let s1 := stub.set_price symbol tc.price
  let s2 := s1.set_ma symbol 100 .D1 tc.ma
  let s3 := s2.set_ma symbol 50 .D1 tc.ma
  let s4 := s3.set_ma symbol 20 .D1 tc.ma
  let s5 := s4.set_ma symbol 200 .D1 tc.ma
  let s6 := s5.set_ma symbol 1 .D1 tc.ma
  s6.set_rsi symbol 14 .D1 tc.rsi

end TestDataGenerator

/-- `robustness_tests.RobustnessTestResult`. -/
structure RobustnessTestResult where
  passed : Bool
  errors : List String
  warnings : List String
  test_count : ℕ
  pass_count : ℕ
  fail_count : ℕ
deriving Repr, DecidableEq

namespace RobustnessTestResult

/-- `RobustnessTestResult.__init__`. -/
def new : RobustnessTestResult :=
  { passed := true, errors := [], warnings := [],
    test_count := 0, pass_count := 0, fail_count := 0 }

/-- `RobustnessTestResult.add_error`. -/
def add_error (r : RobustnessTestResult) (msg : String) : RobustnessTestResult :=
  { r with
    passed := false
    errors := r.errors ++ [msg]
    fail_count := r.fail_count + 1 }

/-- `RobustnessTestResult.add_pass`. -/
def add_pass (r : RobustnessTestResult) : RobustnessTestResult :=
  { r with pass_count := r.pass_count + 1 }

end RobustnessTestResult

/-- The observable behaviour of one strategy unit under the harness: for
each scenario case, whether the per-case setup (construct the unit, run
its first hook, apply the case to the stub) raises, and for each
(case, position) pair, whether `handle_data` raises — `some msg` models a
raised fault with message `msg`. -/
structure UnitBehaviour where
  setup : TestCase → Option String
  handle : TestCase → Int → Option String

namespace RobustnessTests

open TestDataGenerator

/-- The inner `for position_qty in [...]` loop of
`test_handle_data_boundary`: one pass or one recorded error per position. -/
def posLoop (u : UnitBehaviour) (tc : TestCase) :
    List Int → RobustnessTestResult → RobustnessTestResult
  | [], r => r
  | pos :: rest, r =>
    match u.handle tc pos with
    | none => posLoop u tc rest r.add_pass
    | some e =>
      posLoop u tc rest (r.add_error
        ("Test case '" ++ tc.name ++ "' (position=" ++ toString pos ++
         ") execution failed: " ++ e))

/-- The outer case loop of `test_handle_data_boundary`: a setup fault is
one recorded error; otherwise the three position states are exercised. -/
def boundaryLoop (u : UnitBehaviour) :
    List TestCase → RobustnessTestResult → RobustnessTestResult
  | [], r => r
  | tc :: rest, r =>
    match u.setup tc with
    | some e =>
      boundaryLoop u rest
        (r.add_error ("Test case '" ++ tc.name ++ "' setup failed: " ++ e))
    | none => boundaryLoop u rest (posLoop u tc [0, 100, -100] r)

/-- `robustness_tests.test_handle_data_boundary`: `test_count` is the
number of boundary cases, then the case loop runs. -/
def test_handle_data_boundary (u : UnitBehaviour) : RobustnessTestResult :=
  let cases := get_boundary_test_cases
  boundaryLoop u cases { RobustnessTestResult.new with test_count := cases.length }

/-- `random.choice(seq)`: one generator draw selecting an index below
`seq`'s length. -/
def choice (g : RandomGen) (l : List Int) (st : Nat) : Int × Nat :=
  let p := g.next st
  (l.getD (Int.toNat ⌊p.1 * l.length⌋) 0, p.2)

/-- The case loop of `test_handle_data_random`: a setup fault is one
recorded error (the position draw is then never reached); otherwise one
position is drawn and `handle_data` contributes one pass or one error. -/
def randomLoop (u : UnitBehaviour) (g : RandomGen) :
    List TestCase → RobustnessTestResult × Nat → RobustnessTestResult × Nat
  | [], r => r
  | tc :: rest, (r, st) =>
    match u.setup tc with
    | some e =>
      randomLoop u g rest
        (r.add_error ("Random test '" ++ tc.name ++ "' setup failed: " ++ e), st)
    | none =>
      let p := choice g [0, 50, 100, 200, -50] st
      match u.handle tc p.1 with
      | none => randomLoop u g rest (r.add_pass, p.2)
      | some e =>
        randomLoop u g rest
          (r.add_error ("Random test '" ++ tc.name ++ "' execution failed: " ++ e),
           p.2)

/-- `robustness_tests.test_handle_data_random`: generate `count` random
cases with the fixed seed 42, set `test_count` to their number, then run
the case loop. -/
def test_handle_data_random (u : UnitBehaviour) (g : RandomGen) (count : Nat)
    (st : Nat) : RobustnessTestResult × Nat :=
  let p := get_random_test_cases g count (some 42) st
  randomLoop u g p.1
    ({ RobustnessTestResult.new with test_count := p.1.length }, p.2)

end RobustnessTests

/-- A Python constant as seen by `ast.Constant`. -/
inductive PyConst where
  | pyNone : PyConst
  | num : ℚ → PyConst
  | str : String → PyConst
deriving Repr, DecidableEq

/-- The fragment of the Python AST that `code_quality_scorer.py` walks.
`docstring` on a class or function plays `ast.get_docstring`. -/
inductive PyNode where
  | classDef (name : String) (docstring : Option String) (body : List PyNode)
  | funcDef (name : String) (docstring : Option String) (body : List PyNode)
  | ifStmt (test : PyNode) (body : List PyNode) (orelse : List PyNode)
  | whileStmt (test : PyNode) (body : List PyNode)
  | forStmt (body : List PyNode)
  | tryStmt (body : List PyNode) (handlers : List PyNode)
  | boolOp (values : List PyNode)
  | compare (left : PyNode) (comparators : List PyNode)
  | constant (v : PyConst)
  | ret (value : List PyNode)
  | other (children : List PyNode)

namespace PyNode

mutual

/-- `ast.walk`: the node itself and all of its descendants. -/
def walk : PyNode → List PyNode
  | classDef n d b => classDef n d b :: walkList b
  | funcDef n d b => funcDef n d b :: walkList b
  | ifStmt t b e => ifStmt t b e :: (walk t ++ (walkList b ++ walkList e))
  | whileStmt t b => whileStmt t b :: (walk t ++ walkList b)
  | forStmt b => forStmt b :: walkList b
  | tryStmt b h => tryStmt b h :: (walkList b ++ walkList h)
  | boolOp vs => boolOp vs :: walkList vs
  | compare l cs => compare l cs :: (walk l ++ walkList cs)
  | constant v => [constant v]
  | ret v => ret v :: walkList v
  | other cs => other cs :: walkList cs

/-- `ast.walk` over a list of sibling nodes. -/
def walkList : List PyNode → List PyNode
  | [] => []
  | n :: rest => walk n ++ walkList rest

end

/-- Walk of a whole parsed module (`ast.parse` result: a statement list). -/
def walkModule (tree : List PyNode) : List PyNode := walkList tree

end PyNode

namespace CodeQualityScorer

open PyNode

/-- Rounding to the nearest integer with ties to even, as Python's
`round` does on the rational model. -/
def pyRoundHalfEven (x : ℚ) : ℤ :=
  if x - ⌊x⌋ < 1 / 2 then ⌊x⌋
  else if 1 / 2 < x - ⌊x⌋ then ⌊x⌋ + 1
  else if ⌊x⌋ % 2 = 0 then ⌊x⌋ else ⌊x⌋ + 1

/-- Python `round(q, 2)` on the rational model: ties round to the even
hundredth (round-half-even). -/
def pyRound2 (q : ℚ) : ℚ :=
  (pyRoundHalfEven (q * 100) : ℚ) / 100

/-- The five sub-scores plus their weighted `overall`, as the dict built
by `_calculate_quality_scores`. -/
structure QualityScores where
  structure_score : ℚ
  error_handling : ℚ
  doc_score : ℚ
  complexity : ℚ
  best_practices : ℚ
  overall : ℚ
deriving Repr, DecidableEq

/-- `_score_structure`: base 50, +15 per required hook among the class's
method names, +10 for a `custom_indicator` method, +10 when the parsed
source contains any class definition, capped at 100. -/
def score_structure (class_methods : List String) (tree : List PyNode) : ℚ :=
  let s : ℚ := 50
  let s := if "initialize" ∈ class_methods then s + 15 else s
  let s := if "handle_data" ∈ class_methods then s + 15 else s
  let s := if "custom_indicator" ∈ class_methods then s + 10 else s
  let s :=
    if 0 < ((walkModule tree).filter fun n =>
        match n with | classDef _ _ _ => true | _ => false).length
    then s + 10 else s
  min s 100

/-- Number of `ast.Try` nodes in the walk. -/
def tryCount (tree : List PyNode) : ℕ :=
  ((walkModule tree).filter fun n =>
    match n with | tryStmt _ _ => true | _ => false).length

/-- Number of comparators that are the constant `None`, summed over all
`ast.Compare` nodes. -/
def noneCheckCount (tree : List PyNode) : ℕ :=
  ((walkModule tree).map fun n =>
    match n with
    | PyNode.compare _ cs =>
      (cs.filter fun c =>
        match c with | constant .pyNone => true | _ => false).length
    | _ => 0).sum

/-- `_score_error_handling`: base 30, +15 per try block capped at 40,
+3 per `None` comparison capped at 30, capped at 100. -/
def score_error_handling (tree : List PyNode) : ℚ :=
  min (30 + min (tryCount tree * 15 : ℚ) 40 + min (noneCheckCount tree * 3 : ℚ) 30) 100

/-- `_score_documentation` (docstring scoring): +30 when some class has a
docstring, +10 per function with a docstring capped at 70, capped at 100. -/
def score_docstrings (tree : List PyNode) : ℚ :=
  let classDoc : ℚ :=
    if ((walkModule tree).filter fun n =>
        match n with | classDef _ (some _) _ => true | _ => false).length ≠ 0
    then 30 else 0
  let methodDocs : ℕ :=
    ((walkModule tree).filter fun n =>
      match n with | funcDef _ (some _) _ => true | _ => false).length
  min (classDoc + min (methodDocs * 10 : ℚ) 70) 100

/-- The cyclomatic-complexity indicator count of `_score_complexity`:
+1 per if/while/for/try, +(arity − 1) per boolean combinator. -/
def complexityCount (tree : List PyNode) : ℕ :=
  ((walkModule tree).map fun n =>
    match n with
    | ifStmt _ _ _ => 1
    | whileStmt _ _ => 1
    | forStmt _ => 1
    | tryStmt _ _ => 1
    | boolOp vs => vs.length - 1
    | _ => 0).sum

/-- `_score_complexity`: fixed tiers over the indicator count. -/
def score_complexity (tree : List PyNode) : ℚ :=
  let c := complexityCount tree
  if c ≤ 5 then 100
  else if c ≤ 10 then 80
  else if c ≤ 15 then 60
  else if c ≤ 20 then 40
  else 20

/-- Numeric constants outside the allowed set `{0, 1, -1, 2, 100}`. -/
def magicNumberCount (tree : List PyNode) : ℕ :=
  ((walkModule tree).filter fun n =>
    match n with
    | constant (.num q) => decide (q ≠ 0 ∧ q ≠ 1 ∧ q ≠ -1 ∧ q ≠ 2 ∧ q ≠ 100)
    | _ => false).length

/-- Number of `ast.Return` nodes in the walk. -/
def returnCount (tree : List PyNode) : ℕ :=
  ((walkModule tree).filter fun n =>
    match n with | ret _ => true | _ => false).length

/-- The early-return count: for each `If` node of the walk, the number of
`Return` nodes in that `If` node's own walk (nested ifs recount). -/
def earlyReturnCount (tree : List PyNode) : ℕ :=
  ((walkModule tree).map fun n =>
    match n with
    | ifStmt t b e => returnCount [ifStmt t b e]
    | _ => 0).sum

/-- `_score_best_practices`: base 50, −2 per magic number capped at 20,
+10 when the raw source contains an underscore, +10 when any return
exists, +5 per early return capped at 20, clamped to [0, 100]. -/
def score_best_practices (tree : List PyNode) (source : String) : ℚ :=
  let s : ℚ := 50 - min (magicNumberCount tree * 2 : ℚ) 20
  let s := if source.contains '_' then s + 10 else s
  let s := if 0 < returnCount tree then s + 10 else s
  let s := s + min (earlyReturnCount tree * 5 : ℚ) 20
  max 0 (min s 100)

/-- `_calculate_quality_scores`: all-zero on a parse failure, else the
five sub-scores and their weighted, rounded overall. -/
def calculate_quality_scores (class_methods : List String)
    (parsed : Option (List PyNode)) (source : String) : QualityScores :=
  match parsed with
  | none =>
    { structure_score := 0, error_handling := 0, doc_score := 0,
      complexity := 0, best_practices := 0, overall := 0 }
  | some tree =>
    let st := score_structure class_methods tree
    let eh := score_error_handling tree
    let doc := score_docstrings tree
    let cx := score_complexity tree
    let bp := score_best_practices tree source
    { structure_score := st
      error_handling := eh
      doc_score := doc
      complexity := cx
      best_practices := bp
      overall := pyRound2 (st * (20 / 100) + eh * (25 / 100) + doc * (15 / 100) +
        cx * (15 / 100) + bp * (25 / 100)) }

/-- The per-phase counts of the dict built by `test_strategy_robustness`
(`test_count`, `pass_count`, `fail_count`, sampled errors). -/
structure PhaseStats where
  test_count : ℕ
  pass_count : ℕ
  fail_count : ℕ
  errors : List String
deriving Repr, DecidableEq

/-- The robustness-result dict as read by `_calculate_robustness_score`
when the unit's first hook succeeded (`initialize_passed` key true means
the phases were run and both phase dicts are present). -/
structure RobustnessSummary where
  init_passed : Bool
  boundary_tests : PhaseStats
  random_tests : PhaseStats
deriving Repr, DecidableEq

/-- `_calculate_robustness_score`: 0 when the first hook failed,
otherwise the weighted capped pass rates, capped at 100 and rounded. -/
def calculate_robustness_score (r : RobustnessSummary) : ℚ :=
  if !r.init_passed then 0
  else
    let bpr : ℚ :=
      if 0 < r.boundary_tests.test_count then
        min ((r.boundary_tests.pass_count : ℚ) / r.boundary_tests.test_count) 1
      else 0
    let rpr : ℚ :=
      if 0 < r.random_tests.test_count then
        min ((r.random_tests.pass_count : ℚ) / r.random_tests.test_count) 1
      else 0
    pyRound2 (min ((bpr * (6 / 10) + rpr * (4 / 10)) * 100) 100)

/-- `_assign_grade`: top-down strict thresholds. -/
def assign_grade (score : ℚ) : String :=
  if 90 ≤ score then "A"
  else if 80 ≤ score then "B"
  else if 70 ≤ score then "C"
  else if 60 ≤ score then "D"
  else "F"

/-- The score record built by `score_strategy`. -/
structure Scores where
  robustness : ℚ
  quality : QualityScores
  overall : ℚ
  grade : String
deriving Repr, DecidableEq

/-- `score_strategy`: robustness score, quality scores, rounded combined
overall, and the grade assigned from the unrounded combined overall. -/
def score_strategy (class_methods : List String)
    (parsed : Option (List PyNode)) (source : String)
    (r : RobustnessSummary) : Scores :=
  let rob := calculate_robustness_score r
  let q := calculate_quality_scores class_methods parsed source
  let overall := rob * (40 / 100) + q.overall * (60 / 100)
  { robustness := rob
    quality := q
    overall := pyRound2 overall
    grade := assign_grade overall }

end CodeQualityScorer

/-- A class found in an executed module namespace, as seen by the loader:
its binding name in the namespace, its `__name__`, and whether it is a
proper subclass of the strategy base marker. -/
structure NSClass where
  bindingName : String
  clsName : String
  isStrategySubclass : Bool
deriving Repr, DecidableEq

/-- The loader's view of executing one file's top-level code: either a
raised fault's message, or the classes the module defined (in
`inspect.getmembers` order, the injected base marker excluded). -/
inductive ExecOutcome where
  | raised (msg : String)
  | ok (classes : List NSClass)
deriving Repr, DecidableEq

/-- The triple returned by `load_strategy_class`: the strategy class (or
none) and the error message (or none); the module-name component is
omitted from the model. -/
structure LoadResult where
  cls : Option NSClass
  error : Option String
deriving Repr, DecidableEq

namespace StrategyLoader

/-- The class-search loop of `load_strategy_class`: scan candidate
subclasses, stop at one bound as `Strategy`, otherwise remember the first
candidate as a fallback. -/
def findStrategyClass : List NSClass → Option NSClass → Option NSClass
  | [], acc => acc
  | c :: rest, acc =>
    if c.isStrategySubclass then
      if c.bindingName = "Strategy" then some c
      else findStrategyClass rest (if acc.isNone then some c else acc)
    else findStrategyClass rest acc

/-- `strategy_loader.load_strategy_class`: never raises; returns the
class on success and an error message in every other case. -/
def load_strategy_class (specOk : Bool) (filePath : String)
    (out : ExecOutcome) : LoadResult :=
  if !specOk then
    { cls := none, error := some ("Failed to create module spec: " ++ filePath) }
  else
    match out with
    | .raised e => { cls := none, error := some ("Loading failed: " ++ e) }
    | .ok classes =>
      match findStrategyClass classes none with
      | none =>
        match classes with
        | [] => { cls := none, error := some "No strategy class found" }
        | c :: _ =>
          { cls := none
            error := some ("Strategy class not found, found class: " ++
              c.clsName ++ ". Please ensure class name is Strategy.") }
      | some c =>
        if c.clsName ≠ "Strategy" then
          { cls := none
            error := some ("Found class name is not 'Strategy', but '" ++
              c.clsName ++ "'. Please ensure class name is Strategy.") }
        else { cls := some c, error := none }

end StrategyLoader

/-- Spec-side predicate for the boundary-set guarantee: the RSI component
is absent, non-finite, or a finite number within [0, 100]. -/
def rsiOk (c : TestCase) : Prop :=
  c.rsi = none ∨ (∃ v, c.rsi = some v ∧ v.isFinite = false) ∨
    ∃ q, c.rsi = some (FloatVal.finite q) ∧ 0 ≤ q ∧ q ≤ 100

/-- Spec-side pass rate: `pass_count / test_count` capped at 1 (division
by a zero `test_count` gives 0 in the rational model). -/
def cappedRate (pass test : ℕ) : ℚ :=
  min ((pass : ℚ) / test) 1

/-! The theorems. -/

theorem AList.lookup_insert {α β : Type} [DecidableEq α]
    (l : AList α β) (k : α) (v : β) : (l.insert k v).lookup k = some v := by
  induction l with
  | nil => simp [AList.insert, AList.lookup]
  | cons hd tl ih =>
    obtain ⟨k0, v0⟩ := hd
    by_cases h : k = k0
    · simp [AList.insert, AList.lookup, h]
    · simp [AList.insert, AList.lookup, h, ih]

/-- Claim C9: the stub never clamps or validates stored indicator values:
for every symbol, period, bar granularity and value `v` (absent included),
setting the RSI to `v` and reading it back returns exactly `v`; in
particular applying the case {price 100, ma 95, rsi 150} to a fresh stub
and then reading RSI for period 14 on daily bars returns exactly 150. -/
theorem c9_stub_rsi_roundtrip :
    (∀ (s : FrameworkStub) (symbol : String) (period : Nat) (bt : BarType)
      (v : Option FloatVal),
      (s.set_rsi symbol period bt v).rsi symbol period bt = v)
    ∧ (TestDataGenerator.apply_test_data_to_stub FrameworkStub.init "TEST_SYMBOL"
        ⟨"rsi_over_100", some (.finite 100), some (.finite 95), some (.finite 150)⟩).rsi
        "TEST_SYMBOL" 14 .D1 = some (.finite 150) := by
  constructor
  · intro s symbol period bt v
    simp [FrameworkStub.set_rsi, FrameworkStub.rsi, AList.lookup_insert]
  · rfl

/-- Claim C10: for every symbol with no explicitly stored value (in
particular on a fresh stub and immediately after `reset`), the queries
return fixed non-absent defaults — price 100.0, moving average 100.0,
RSI 50.0 — and a query returns absent only when its key was stored with
an absent value. -/
theorem c10_stub_defaults :
    (∀ symbol, FrameworkStub.init.current_price symbol = some (.finite 100))
    ∧ (∀ (s : FrameworkStub) symbol, s.default_price = 100 →
        (s.reset).current_price symbol = some (.finite 100))
    ∧ (∀ (s : FrameworkStub) symbol period bt,
        (s.reset).ma symbol period bt = some (.finite 100))
    ∧ (∀ (s : FrameworkStub) symbol period bt,
        (s.reset).rsi symbol period bt = some (.finite 50))
    ∧ (∀ (s : FrameworkStub) symbol, s.current_price symbol = none →
        s.price_data.lookup symbol = some none)
    ∧ (∀ (s : FrameworkStub) symbol period bt, s.ma symbol period bt = none →
        (s.indicator_data.lookup (FrameworkStub.maKey symbol period bt)).isSome = true)
    ∧ (∀ (s : FrameworkStub) symbol period bt, s.rsi symbol period bt = none →
        (s.indicator_data.lookup (FrameworkStub.rsiKey symbol period bt)).isSome = true) := by
  refine ⟨fun symbol => rfl, ?_, ?_, ?_, ?_, ?_, ?_⟩
  · intro s symbol h
    simp [FrameworkStub.reset, FrameworkStub.current_price, AList.lookup, h]
  · intro s symbol period bt
    simp [FrameworkStub.reset, FrameworkStub.ma, AList.lookup]
  · intro s symbol period bt
    simp [FrameworkStub.reset, FrameworkStub.rsi, AList.lookup]
  · intro s symbol h
    unfold FrameworkStub.current_price at h
    cases hl : s.price_data.lookup symbol with
    | none => rw [hl] at h; simp at h
    | some v => rw [hl] at h; simp at h; rw [h]
  · intro s symbol period bt h
    unfold FrameworkStub.ma at h
    cases hl : s.indicator_data.lookup (FrameworkStub.maKey symbol period bt) with
    | none => rw [hl] at h; simp at h
    | some inner => simp [hl]
  · intro s symbol period bt h
    unfold FrameworkStub.rsi at h
    cases hl : s.indicator_data.lookup (FrameworkStub.rsiKey symbol period bt) with
    | none => rw [hl] at h; simp at h
    | some inner => simp [hl]

/-- Witness for C10 at concrete inputs: the fresh stub's defaults, the
reset of a stub holding data, and a price explicitly stored as absent. -/
theorem c10_stub_defaults_witness :
    FrameworkStub.init.current_price "TEST_SYMBOL" = some (.finite 100)
    ∧ ((FrameworkStub.init.set_price "A" (some (.finite 5))).reset).current_price "A"
        = some (.finite 100)
    ∧ (FrameworkStub.init.reset).ma "A" 20 .D1 = some (.finite 100)
    ∧ (FrameworkStub.init.reset).rsi "A" 14 .D1 = some (.finite 50)
    ∧ (FrameworkStub.init.set_price "A" none).price_data.lookup "A" = some none := by
  refine ⟨c10_stub_defaults.1 "TEST_SYMBOL", ?_, ?_, ?_, ?_⟩
  · exact c10_stub_defaults.2.1 (FrameworkStub.init.set_price "A" (some (.finite 5))) "A" rfl
  · exact c10_stub_defaults.2.2.1 FrameworkStub.init "A" 20 .D1
  · exact c10_stub_defaults.2.2.2.1 FrameworkStub.init "A" 14 .D1
  · exact c10_stub_defaults.2.2.2.2.1 (FrameworkStub.init.set_price "A" none) "A" rfl

/-- Claim C6 counterexample: on a fresh stub no price has been set for
"AAPL" (the price dict is empty), yet `bid` returns 99.9 and `ask`
returns 100.1 — not absent as the claim states. -/
theorem c6_counterexample :
    FrameworkStub.init.price_data = []
    ∧ FrameworkStub.init.bid "AAPL" = some (.finite (999 / 10))
    ∧ FrameworkStub.init.bid "AAPL" ≠ none
    ∧ FrameworkStub.init.ask "AAPL" = some (.finite (1001 / 10)) := by
  refine ⟨rfl, ?_, ?_, ?_⟩
  · show some ((FloatVal.finite 100).mul (.finite (999 / 1000))) = _
    simp [FloatVal.mul]
    norm_num
  · intro h
    simp [FrameworkStub.bid, FrameworkStub.current_price, AList.lookup] at h
  · show some ((FloatVal.finite 100).mul (.finite (1001 / 1000))) = _
    simp [FloatVal.mul]
    norm_num

/-- Claim C6 (amended): `bid`/`ask` derive from `current_price`, which
falls back to the stored default (100.0) when no price entry exists for
the symbol; they return the price times 0.999 / 1.001 whenever the
(possibly defaulted) price is non-absent, and are absent exactly when the
price was explicitly stored as absent. -/
theorem c6_bid_ask (s : FrameworkStub) (symbol : String) :
    (∀ p, s.price_data.lookup symbol = some (some p) →
      s.bid symbol = some (p.mul (.finite (999 / 1000)))
      ∧ s.ask symbol = some (p.mul (.finite (1001 / 1000))))
    ∧ (s.price_data.lookup symbol = none →
      s.bid symbol = some ((FloatVal.finite s.default_price).mul (.finite (999 / 1000)))
      ∧ s.ask symbol = some ((FloatVal.finite s.default_price).mul (.finite (1001 / 1000))))
    ∧ (s.price_data.lookup symbol = some none →
      s.bid symbol = none ∧ s.ask symbol = none) := by
  refine ⟨?_, ?_, ?_⟩
  · intro p h
    constructor <;> simp [FrameworkStub.bid, FrameworkStub.ask,
      FrameworkStub.current_price, h]
  · intro h
    constructor <;> simp [FrameworkStub.bid, FrameworkStub.ask,
      FrameworkStub.current_price, h]
  · intro h
    constructor <;> simp [FrameworkStub.bid, FrameworkStub.ask,
      FrameworkStub.current_price, h]

/-- Witness for C6 (amended) at concrete inputs: a stored price of 200
yields bid 199.8 and ask 200.2, and a price stored as absent yields
absent bid and ask. -/
theorem c6_bid_ask_witness :
    (FrameworkStub.init.set_price "A" (some (.finite 200))).bid "A"
      = some ((FloatVal.finite 200).mul (.finite (999 / 1000)))
    ∧ (FrameworkStub.init.set_price "A" none).bid "A" = none
    ∧ (FrameworkStub.init.set_price "A" none).ask "A" = none := by
  refine ⟨?_, ?_, ?_⟩
  · exact ((c6_bid_ask (FrameworkStub.init.set_price "A" (some (.finite 200))) "A").1
      (.finite 200) rfl).1
  · exact ((c6_bid_ask (FrameworkStub.init.set_price "A" none) "A").2.2 rfl).1
  · exact ((c6_bid_ask (FrameworkStub.init.set_price "A" none) "A").2.2 rfl).2

/-- Claim C7 counterexample: a unit providing neither required hook whose
source nevertheless contains a class definition scores 60 on structure,
not 50 — the class-definition bonus still applies. -/
theorem c7_counterexample :
    "initialize" ∉ ([] : List String)
    ∧ "handle_data" ∉ ([] : List String)
    ∧ CodeQualityScorer.score_structure [] [PyNode.classDef "Strategy" none []] = 60
    ∧ (60 : ℚ) ≠ 50 := by
  refine ⟨by simp, by simp, ?_, by norm_num⟩
  simp [CodeQualityScorer.score_structure, PyNode.walkModule, PyNode.walkList,
    PyNode.walk]
  norm_num [min_def]

/-- Claim C7 (amended): for a unit providing neither required hook the
structure sub-score is the base 50 plus 10 when a `custom_indicator`
method is present plus 10 when the parsed source contains a class
definition; it equals exactly 50 only when both of those bonuses are also
absent. -/
theorem c7_structure_score (class_methods : List String) (tree : List PyNode)
    (h1 : "initialize" ∉ class_methods) (h2 : "handle_data" ∉ class_methods) :
    CodeQualityScorer.score_structure class_methods tree =
      50 + (if "custom_indicator" ∈ class_methods then (10 : ℚ) else 0) +
      (if 0 < ((PyNode.walkModule tree).filter fun n =>
          match n with | .classDef _ _ _ => true | _ => false).length
        then (10 : ℚ) else 0) := by
  unfold CodeQualityScorer.score_structure
  simp only [h1, h2, if_neg, if_false]
  split <;> split <;>
    (rw [min_eq_left (by norm_num)]; try norm_num)

/-- Witness for C7 (amended) at concrete inputs: no hooks, no
`custom_indicator`, empty source tree gives exactly the base 50. -/
theorem c7_structure_score_witness :
    CodeQualityScorer.score_structure [] [] = 50 := by
  have h := c7_structure_score [] [] (by simp) (by simp)
  simpa [PyNode.walkModule, PyNode.walkList] using h

/-- Claim C4: every case of the boundary cross product survives the RSI
guard (no member has a finite RSI that is negative or above 100), and
consequently each one's RSI component is absent, non-finite, or a finite
number within [0, 100]. -/
theorem c4_boundary_rsi :
    ∀ c ∈ TestDataGenerator.crossCases,
      TestDataGenerator.rsiMeaningful c.rsi = true ∧ rsiOk c := by
  intro c hc
  unfold TestDataGenerator.crossCases at hc
  simp only [List.mem_flatMap, List.mem_map, List.mem_filter] at hc
  obtain ⟨price, _, maVal, _, rsiVal, ⟨_, hkeep⟩, hcase⟩ := hc
  have hrsi : c.rsi = rsiVal := by rw [← hcase]; rfl
  rw [hrsi]
  refine ⟨hkeep, ?_⟩
  unfold rsiOk
  rw [hrsi]
  match rsiVal, hkeep with
  | none, _ => exact Or.inl rfl
  | some .nan, _ => exact Or.inr (Or.inl ⟨.nan, rfl, rfl⟩)
  | some .inf, _ => exact Or.inr (Or.inl ⟨.inf, rfl, rfl⟩)
  | some .ninf, _ => exact Or.inr (Or.inl ⟨.ninf, rfl, rfl⟩)
  | some (.finite q), hk => ?_
  refine Or.inr (Or.inr ⟨q, rfl, ?_, ?_⟩)
  · by_contra hq
    push_neg at hq
    simp [TestDataGenerator.rsiMeaningful] at hk
    have := hk.1
    linarith
  · by_contra hq
    push_neg at hq
    simp [TestDataGenerator.rsiMeaningful] at hk
    have := hk.2
    linarith

/-- Witness for C4 at a concrete member of the cross product: the case
with all three fields absent is in the set and satisfies the guarantee. -/
theorem c4_boundary_rsi_witness :
    TestDataGenerator.rsiMeaningful (TestDataGenerator.mkCase none none none).rsi = true
    ∧ rsiOk (TestDataGenerator.mkCase none none none) := by
  refine c4_boundary_rsi _ ?_
  unfold TestDataGenerator.crossCases
  simp only [List.mem_flatMap, List.mem_map, List.mem_filter]
  exact ⟨none, by simp [TestDataGenerator.boundary_values],
    none, by simp [TestDataGenerator.boundary_values],
    none, ⟨by simp [TestDataGenerator.boundary_values],
      by simp [TestDataGenerator.rsiMeaningful]⟩, rfl⟩

theorem pyRoundHalfEven_nonneg (x : ℚ) (h : 0 ≤ x) :
    0 ≤ CodeQualityScorer.pyRoundHalfEven x := by
  have hf : (0 : ℤ) ≤ ⌊x⌋ := Int.floor_nonneg.mpr h
  unfold CodeQualityScorer.pyRoundHalfEven
  split
  · exact hf
  · split
    · omega
    · split <;> omega

theorem pyRoundHalfEven_le (x : ℚ) (B : ℤ) (h : x ≤ B) :
    CodeQualityScorer.pyRoundHalfEven x ≤ B := by
  have hfB : ⌊x⌋ ≤ B := by
    have := Int.floor_le_floor h
    simpa using this
  unfold CodeQualityScorer.pyRoundHalfEven
  split
  · exact hfB
  · rename_i hc1
    push_neg at hc1
    have hlt : ⌊x⌋ < B := by
      rcases eq_or_lt_of_le hfB with heq | hlt
      · exfalso
        have hfle : x - ⌊x⌋ ≤ 0 := by
          have hcast : (⌊x⌋ : ℚ) = (B : ℚ) := by rw [heq]
          linarith
        linarith
      · exact hlt
    split
    · omega
    · split <;> omega

theorem pyRound2_mem_Icc (q : ℚ) (h0 : 0 ≤ q) (h1 : q ≤ 100) :
    0 ≤ CodeQualityScorer.pyRound2 q ∧ CodeQualityScorer.pyRound2 q ≤ 100 := by
  unfold CodeQualityScorer.pyRound2
  have hn0 : (0 : ℤ) ≤ CodeQualityScorer.pyRoundHalfEven (q * 100) :=
    pyRoundHalfEven_nonneg _ (by linarith)
  have hn1 : CodeQualityScorer.pyRoundHalfEven (q * 100) ≤ (10000 : ℤ) :=
    pyRoundHalfEven_le _ 10000 (by push_cast; linarith)
  constructor
  · positivity
  · rw [div_le_iff₀ (by norm_num)]
    have : (CodeQualityScorer.pyRoundHalfEven (q * 100) : ℚ) ≤ (10000 : ℚ) := by
      exact_mod_cast hn1
    linarith

theorem cappedRate_mem_Icc (pass test : ℕ) :
    0 ≤ cappedRate pass test ∧ cappedRate pass test ≤ 1 := by
  unfold cappedRate
  constructor
  · exact le_min (by positivity) (by norm_num)
  · exact min_le_right _ _

/-- Claim C2: the robustness score is 0 whenever the unit's first hook
failed; otherwise it is exactly the weighted sum of the two pass rates
(each `pass_count / test_count`, capped at 1) times 100, rounded to two
decimals — the extra cap at 100 in the source is redundant — and the
score always lies in [0, 100]. -/
theorem c2_robustness_score (r : CodeQualityScorer.RobustnessSummary) :
    CodeQualityScorer.calculate_robustness_score r =
      (if r.init_passed then
        CodeQualityScorer.pyRound2
          ((cappedRate r.boundary_tests.pass_count r.boundary_tests.test_count * (6 / 10)
            + cappedRate r.random_tests.pass_count r.random_tests.test_count * (4 / 10)) * 100)
       else 0)
    ∧ 0 ≤ CodeQualityScorer.calculate_robustness_score r
    ∧ CodeQualityScorer.calculate_robustness_score r ≤ 100 := by
  have hb := cappedRate_mem_Icc r.boundary_tests.pass_count r.boundary_tests.test_count
  have hr := cappedRate_mem_Icc r.random_tests.pass_count r.random_tests.test_count
  set b := cappedRate r.boundary_tests.pass_count r.boundary_tests.test_count with hbdef
  set rr := cappedRate r.random_tests.pass_count r.random_tests.test_count with hrdef
  have harg0 : 0 ≤ (b * (6 / 10) + rr * (4 / 10)) * 100 := by nlinarith [hb.1, hr.1]
  have harg1 : (b * (6 / 10) + rr * (4 / 10)) * 100 ≤ 100 := by nlinarith [hb.2, hr.2]
  have hmain : CodeQualityScorer.calculate_robustness_score r =
      (if r.init_passed then
        CodeQualityScorer.pyRound2 ((b * (6 / 10) + rr * (4 / 10)) * 100) else 0) := by
    unfold CodeQualityScorer.calculate_robustness_score
    cases hinit : r.init_passed with
    | false => simp
    | true =>
      simp only [Bool.not_true, Bool.false_eq_true, if_false, if_true]
      have hbeq : (if 0 < r.boundary_tests.test_count then
          min ((r.boundary_tests.pass_count : ℚ) / r.boundary_tests.test_count) 1
          else 0) = b := by
        rw [hbdef]
        unfold cappedRate
        split
        · rfl
        · rename_i h
          have : r.boundary_tests.test_count = 0 := by omega
          simp [this]
      have hreq : (if 0 < r.random_tests.test_count then
          min ((r.random_tests.pass_count : ℚ) / r.random_tests.test_count) 1
          else 0) = rr := by
        rw [hrdef]
        unfold cappedRate
        split
        · rfl
        · rename_i h
          have : r.random_tests.test_count = 0 := by omega
          simp [this]
      rw [hbeq, hreq, min_eq_left harg1]
  refine ⟨hmain, ?_, ?_⟩
  · rw [hmain]
    split
    · exact (pyRound2_mem_Icc _ harg0 harg1).1
    · norm_num
  · rw [hmain]
    split
    · exact (pyRound2_mem_Icc _ harg0 harg1).2
    · norm_num

/-- Claim C3: every score record's letter grade is assigned from the
combined overall `robustness * 0.4 + quality_overall * 0.6` (before the
two-decimal rounding stored in the record) by strict top-down thresholds
at 90/80/70/60, and the boundary instances come out as the claim states:
90.0 gives "A", 89.99 gives "B", 60.0 gives "D", 59.99 gives "F". -/
theorem c3_grade_thresholds :
    (∀ (class_methods : List String) (parsed : Option (List PyNode))
      (source : String) (r : CodeQualityScorer.RobustnessSummary),
      (CodeQualityScorer.score_strategy class_methods parsed source r).grade =
        CodeQualityScorer.assign_grade
          ((CodeQualityScorer.score_strategy class_methods parsed source r).robustness * (40 / 100)
           + (CodeQualityScorer.score_strategy class_methods parsed source r).quality.overall * (60 / 100)))
    ∧ (∀ x : ℚ, 90 ≤ x → CodeQualityScorer.assign_grade x = "A")
    ∧ (∀ x : ℚ, 80 ≤ x → x < 90 → CodeQualityScorer.assign_grade x = "B")
    ∧ (∀ x : ℚ, 70 ≤ x → x < 80 → CodeQualityScorer.assign_grade x = "C")
    ∧ (∀ x : ℚ, 60 ≤ x → x < 70 → CodeQualityScorer.assign_grade x = "D")
    ∧ (∀ x : ℚ, x < 60 → CodeQualityScorer.assign_grade x = "F")
    ∧ CodeQualityScorer.assign_grade 90 = "A"
    ∧ CodeQualityScorer.assign_grade (8999 / 100) = "B"
    ∧ CodeQualityScorer.assign_grade 60 = "D"
    ∧ CodeQualityScorer.assign_grade (5999 / 100) = "F" := by
  refine ⟨fun class_methods parsed source r => rfl, ?_, ?_, ?_, ?_, ?_, ?_, ?_, ?_, ?_⟩
  · intro x h
    simp [CodeQualityScorer.assign_grade, h]
  · intro x h1 h2
    rw [CodeQualityScorer.assign_grade, if_neg (by linarith), if_pos h1]
  · intro x h1 h2
    rw [CodeQualityScorer.assign_grade, if_neg (by linarith), if_neg (by linarith),
      if_pos h1]
  · intro x h1 h2
    rw [CodeQualityScorer.assign_grade, if_neg (by linarith), if_neg (by linarith),
      if_neg (by linarith), if_pos h1]
  · intro x h
    rw [CodeQualityScorer.assign_grade, if_neg (by linarith), if_neg (by linarith),
      if_neg (by linarith), if_neg (by linarith)]
  · norm_num [CodeQualityScorer.assign_grade]
  · norm_num [CodeQualityScorer.assign_grade]
  · norm_num [CodeQualityScorer.assign_grade]
  · norm_num [CodeQualityScorer.assign_grade]

/-- Witness for C3 at concrete inputs: the thresholds applied at 95,
85, 75, 65 and 30. -/
theorem c3_grade_thresholds_witness :
    CodeQualityScorer.assign_grade 95 = "A"
    ∧ CodeQualityScorer.assign_grade 85 = "B"
    ∧ CodeQualityScorer.assign_grade 75 = "C"
    ∧ CodeQualityScorer.assign_grade 65 = "D"
    ∧ CodeQualityScorer.assign_grade 30 = "F" :=
  ⟨c3_grade_thresholds.2.1 95 (by norm_num),
   c3_grade_thresholds.2.2.1 85 (by norm_num) (by norm_num),
   c3_grade_thresholds.2.2.2.1 75 (by norm_num) (by norm_num),
   c3_grade_thresholds.2.2.2.2.1 65 (by norm_num) (by norm_num),
   c3_grade_thresholds.2.2.2.2.2.1 30 (by norm_num)⟩

theorem genCases_length (g : TestDataGenerator.RandomGen) :
    ∀ (n st i : Nat), (TestDataGenerator.genCases g st i n).1.length = n := by
  intro n
  induction n with
  | zero => intro st i; rfl
  | succ k ih =>
    intro st i
    simp only [TestDataGenerator.genCases, List.length_cons]
    rw [ih]

theorem genCases_names (g : TestDataGenerator.RandomGen) :
    ∀ (n st i : Nat),
      (TestDataGenerator.genCases g st i n).1.map (fun c => c.name)
        = (List.range n).map (fun j => "random_case_" ++ toString (i + j + 1)) := by
  intro n
  induction n with
  | zero => intro st i; rfl
  | succ k ih =>
    intro st i
    rw [List.range_succ_eq_map]
    simp only [TestDataGenerator.genCases, List.map_cons, List.map_map]
    refine congrArg₂ List.cons ?_ ?_
    · show "random_case_" ++ toString (i + 1) = "random_case_" ++ toString (i + 0 + 1)
      congr 1
    · rw [ih]
      apply List.map_congr_left
      intro j _
      simp only [Function.comp_apply]
      congr 2
      omega

/-- Claim C5: for every seed value and every count, two invocations of
the random scenario generator with the same (count, seed) — whatever the
generator state left behind by earlier activity — produce identical case
lists: the same length, names `random_case_i` for `i` in [1, count] in
order, and identical field values. -/
theorem c5_random_determinism (g : TestDataGenerator.RandomGen) (n : Nat)
    (s : Int) (st1 st2 : Nat) :
    (TestDataGenerator.get_random_test_cases g n (some s) st1).1
      = (TestDataGenerator.get_random_test_cases g n (some s) st2).1
    ∧ (TestDataGenerator.get_random_test_cases g n (some s) st1).1.length = n
    ∧ (TestDataGenerator.get_random_test_cases g n (some s) st1).1.map (fun c => c.name)
        = (List.range n).map (fun i => "random_case_" ++ toString (i + 1)) := by
  refine ⟨rfl, genCases_length g n _ 0, ?_⟩
  have h := genCases_names g n (g.seedInit s) 0
  rw [TestDataGenerator.get_random_test_cases, h]
  apply List.map_congr_left
  intro j _
  congr 2
  omega

theorem add_pass_counts (r : RobustnessTestResult) :
    r.add_pass.pass_count = r.pass_count + 1 ∧ r.add_pass.fail_count = r.fail_count
    ∧ r.add_pass.test_count = r.test_count :=
  ⟨rfl, rfl, rfl⟩

theorem add_error_counts (r : RobustnessTestResult) (msg : String) :
    (r.add_error msg).pass_count = r.pass_count
    ∧ (r.add_error msg).fail_count = r.fail_count + 1
    ∧ (r.add_error msg).test_count = r.test_count :=
  ⟨rfl, rfl, rfl⟩

theorem posLoop_counts (u : UnitBehaviour) (tc : TestCase) :
    ∀ (ps : List Int) (r : RobustnessTestResult),
      (RobustnessTests.posLoop u tc ps r).pass_count
          + (RobustnessTests.posLoop u tc ps r).fail_count
        = r.pass_count + r.fail_count + ps.length
      ∧ (RobustnessTests.posLoop u tc ps r).test_count = r.test_count := by
  intro ps
  induction ps with
  | nil => intro r; exact ⟨by simp [RobustnessTests.posLoop], rfl⟩
  | cons pos rest ih =>
    intro r
    simp only [RobustnessTests.posLoop]
    split
    · refine ⟨?_, (ih _).2⟩
      have h := (ih r.add_pass).1
      have h2 : r.add_pass.pass_count = r.pass_count + 1 := rfl
      have h3 : r.add_pass.fail_count = r.fail_count := rfl
      rw [List.length_cons]
      omega
    · refine ⟨?_, (ih _).2⟩
      rename_i e _
      have h := (ih (r.add_error ("Test case '" ++ tc.name ++ "' (position=" ++
        toString pos ++ ") execution failed: " ++ e))).1
      have h2 : (r.add_error ("Test case '" ++ tc.name ++ "' (position=" ++
        toString pos ++ ") execution failed: " ++ e)).pass_count = r.pass_count := rfl
      have h3 : (r.add_error ("Test case '" ++ tc.name ++ "' (position=" ++
        toString pos ++ ") execution failed: " ++ e)).fail_count = r.fail_count + 1 := rfl
      rw [List.length_cons]
      omega

theorem boundaryLoop_counts (u : UnitBehaviour) :
    ∀ (cases : List TestCase) (r : RobustnessTestResult),
      (RobustnessTests.boundaryLoop u cases r).pass_count
          + (RobustnessTests.boundaryLoop u cases r).fail_count
        = r.pass_count + r.fail_count
          + 3 * cases.countP (fun tc => (u.setup tc).isNone)
          + cases.countP (fun tc => (u.setup tc).isSome)
      ∧ (RobustnessTests.boundaryLoop u cases r).test_count = r.test_count := by
  intro cases
  induction cases with
  | nil => intro r; exact ⟨by simp [RobustnessTests.boundaryLoop], rfl⟩
  | cons tc rest ih =>
    intro r
    simp only [RobustnessTests.boundaryLoop]
    split
    · rename_i e hs
      refine ⟨?_, (ih _).2⟩
      have h := (ih (r.add_error ("Test case '" ++ tc.name ++
        "' setup failed: " ++ e))).1
      have h2 : (r.add_error ("Test case '" ++ tc.name ++
        "' setup failed: " ++ e)).pass_count = r.pass_count := rfl
      have h3 : (r.add_error ("Test case '" ++ tc.name ++
        "' setup failed: " ++ e)).fail_count = r.fail_count + 1 := rfl
      rw [List.countP_cons, List.countP_cons]
      simp only [hs, Option.isNone_some, Option.isSome_some, if_false, if_true,
        Bool.false_eq_true, ite_false, ite_true]
      omega
    · rename_i hs
      refine ⟨?_, by rw [(ih _).2, (posLoop_counts u tc [0, 100, -100] r).2]⟩
      have h := (ih (RobustnessTests.posLoop u tc [0, 100, -100] r)).1
      have hp := (posLoop_counts u tc [0, 100, -100] r).1
      have hlen : ([0, 100, -100] : List Int).length = 3 := rfl
      rw [List.countP_cons, List.countP_cons]
      simp only [hs, Option.isNone_none, Option.isSome_none, Bool.false_eq_true,
        ite_false, ite_true]
      omega

theorem randomLoop_counts (u : UnitBehaviour) (g : TestDataGenerator.RandomGen) :
    ∀ (cases : List TestCase) (r : RobustnessTestResult) (st : Nat),
      (RobustnessTests.randomLoop u g cases (r, st)).1.pass_count
          + (RobustnessTests.randomLoop u g cases (r, st)).1.fail_count
        = r.pass_count + r.fail_count + cases.length
      ∧ (RobustnessTests.randomLoop u g cases (r, st)).1.test_count = r.test_count := by
  intro cases
  induction cases with
  | nil => intro r st; exact ⟨by simp [RobustnessTests.randomLoop], rfl⟩
  | cons tc rest ih =>
    intro r st
    simp only [RobustnessTests.randomLoop]
    split
    · rename_i e _
      refine ⟨?_, (ih _ _).2⟩
      have h := (ih (r.add_error ("Random test '" ++ tc.name ++
        "' setup failed: " ++ e)) st).1
      have h2 : (r.add_error ("Random test '" ++ tc.name ++
        "' setup failed: " ++ e)).pass_count = r.pass_count := rfl
      have h3 : (r.add_error ("Random test '" ++ tc.name ++
        "' setup failed: " ++ e)).fail_count = r.fail_count + 1 := rfl
      rw [List.length_cons]
      omega
    · split
      · refine ⟨?_, (ih _ _).2⟩
        have h := (ih r.add_pass
          (RobustnessTests.choice g [0, 50, 100, 200, -50] st).2).1
        have h2 : r.add_pass.pass_count = r.pass_count + 1 := rfl
        have h3 : r.add_pass.fail_count = r.fail_count := rfl
        rw [List.length_cons]
        omega
      · rename_i e _
        refine ⟨?_, (ih _ _).2⟩
        have h := (ih (r.add_error ("Random test '" ++ tc.name ++
          "' execution failed: " ++ e))
          (RobustnessTests.choice g [0, 50, 100, 200, -50] st).2).1
        have h2 : (r.add_error ("Random test '" ++ tc.name ++
          "' execution failed: " ++ e)).pass_count = r.pass_count := rfl
        have h3 : (r.add_error ("Random test '" ++ tc.name ++
          "' execution failed: " ++ e)).fail_count = r.fail_count + 1 := rfl
        rw [List.length_cons]
        omega

set_option maxRecDepth 4000 in
theorem boundary_cases_length :
    TestDataGenerator.get_boundary_test_cases.length = 616 := by
  norm_num [TestDataGenerator.get_boundary_test_cases, TestDataGenerator.crossCases,
    TestDataGenerator.common_cases, TestDataGenerator.boundary_values,
    TestDataGenerator.rsiMeaningful, List.filter]

/-- Claim C1 counterexample: for a unit whose setup and `handle_data`
never fault, the boundary-phase report has `pass_count + fail_count =
1848` (three position states per case) while `test_count = 616` (the
number of cases), so the claimed invariant fails on the boundary phase. -/
theorem c1_counterexample :
    (RobustnessTests.test_handle_data_boundary
        ⟨fun _ => none, fun _ _ => none⟩).pass_count
      + (RobustnessTests.test_handle_data_boundary
          ⟨fun _ => none, fun _ _ => none⟩).fail_count = 1848
    ∧ (RobustnessTests.test_handle_data_boundary
        ⟨fun _ => none, fun _ _ => none⟩).test_count = 616
    ∧ (1848 : ℕ) ≠ 616 := by
  have h := boundaryLoop_counts ⟨fun _ => none, fun _ _ => none⟩
    TestDataGenerator.get_boundary_test_cases
    { RobustnessTestResult.new with
      test_count := TestDataGenerator.get_boundary_test_cases.length }
  unfold RobustnessTests.test_handle_data_boundary
  refine ⟨?_, ?_, by omega⟩
  · rw [h.1]
    simp only [Option.isNone_none, Option.isSome_none, List.countP_true,
      List.countP_false, RobustnessTestResult.new, Function.const_apply]
    rw [boundary_cases_length]
  · rw [h.2, boundary_cases_length]

/-- Claim C1 (amended): the random-phase report always satisfies
`pass_count + fail_count = test_count` (one outcome per case), but the
boundary-phase report satisfies `pass_count + fail_count =
3·(number of cases with non-faulting setup) + (number of cases with
faulting setup)` while `test_count` is the number of cases — so there the
claimed invariant holds only when every case's setup faults. -/
theorem c1_phase_counts :
    (∀ (u : UnitBehaviour) (g : TestDataGenerator.RandomGen) (count st : Nat),
      (RobustnessTests.test_handle_data_random u g count st).1.pass_count
        + (RobustnessTests.test_handle_data_random u g count st).1.fail_count
      = (RobustnessTests.test_handle_data_random u g count st).1.test_count)
    ∧ (∀ u : UnitBehaviour,
      (RobustnessTests.test_handle_data_boundary u).pass_count
        + (RobustnessTests.test_handle_data_boundary u).fail_count
      = 3 * TestDataGenerator.get_boundary_test_cases.countP
            (fun tc => (u.setup tc).isNone)
        + TestDataGenerator.get_boundary_test_cases.countP
            (fun tc => (u.setup tc).isSome)
      ∧ (RobustnessTests.test_handle_data_boundary u).test_count
        = TestDataGenerator.get_boundary_test_cases.length) := by
  constructor
  · intro u g count st
    unfold RobustnessTests.test_handle_data_random
    have h := randomLoop_counts u g
      (TestDataGenerator.get_random_test_cases g count (some 42) st).1
      { RobustnessTestResult.new with
        test_count := (TestDataGenerator.get_random_test_cases g count (some 42) st).1.length }
      (TestDataGenerator.get_random_test_cases g count (some 42) st).2
    rw [h.1, h.2]
    simp [RobustnessTestResult.new]
  · intro u
    unfold RobustnessTests.test_handle_data_boundary
    have h := boundaryLoop_counts u TestDataGenerator.get_boundary_test_cases
      { RobustnessTestResult.new with
        test_count := TestDataGenerator.get_boundary_test_cases.length }
    rw [h.1, h.2]
    simp [RobustnessTestResult.new]

theorem findStrategyClass_spec :
    ∀ (l : List NSClass) (acc : Option NSClass) (c : NSClass),
      StrategyLoader.findStrategyClass l acc = some c →
      (c ∈ l ∧ c.isStrategySubclass = true) ∨ acc = some c := by
  intro l
  induction l with
  | nil =>
    intro acc c h
    exact Or.inr h
  | cons x rest ih =>
    intro acc c h
    simp only [StrategyLoader.findStrategyClass] at h
    by_cases hsub : x.isStrategySubclass
    · rw [if_pos hsub] at h
      by_cases hname : x.bindingName = "Strategy"
      · rw [if_pos hname] at h
        cases h
        exact Or.inl ⟨List.mem_cons_self _ _, hsub⟩
      · rw [if_neg hname] at h
        rcases ih _ _ h with ⟨hm, hc⟩ | hacc
        · exact Or.inl ⟨List.mem_cons_of_mem _ hm, hc⟩
        · by_cases hnone : acc.isNone
          · rw [if_pos hnone] at hacc
            cases hacc
            exact Or.inl ⟨List.mem_cons_self _ _, hsub⟩
          · rw [if_neg hnone] at hacc
            exact Or.inr hacc
    · rw [if_neg hsub] at h
      rcases ih _ _ h with ⟨hm, hc⟩ | hacc
      · exact Or.inl ⟨List.mem_cons_of_mem _ hm, hc⟩
      · exact Or.inr hacc

/-- Claim C8 counterexample: a namespace whose only class is not a
candidate (not a strategy subclass) — the claim requires the error to
state that no strategy was found, but the loader instead emits the error
that names the found class. -/
theorem c8_counterexample :
    ([NSClass.mk "Foo" "Foo" false].all fun c => !c.isStrategySubclass) = true
    ∧ StrategyLoader.load_strategy_class true "foo.py"
        (.ok [NSClass.mk "Foo" "Foo" false])
      = ⟨none, some ("Strategy class not found, found class: Foo. " ++
          "Please ensure class name is Strategy.")⟩
    ∧ (StrategyLoader.load_strategy_class true "foo.py"
        (.ok [NSClass.mk "Foo" "Foo" false])).error
      ≠ some "No strategy class found" := by
  refine ⟨rfl, rfl, ?_⟩
  intro h
  simp [StrategyLoader.load_strategy_class,
    StrategyLoader.findStrategyClass] at h

/-- Claim C8 (amended): loading is a total function that never lets a
fault propagate: a fault during execution is wrapped in a "Loading
failed" error; the "No strategy class found" error occurs exactly when
the executed namespace defines no class at all; when classes exist but
the candidate search finds nothing, the error names the first found
class; when the found candidate's type name is not "Strategy" the error
names it; on success the returned class is a candidate found in the
namespace whose type name is "Strategy" — and in every non-success case
the result carries no class. -/
theorem c8_loader (specOk : Bool) (fp : String) (out : ExecOutcome) :
    ((StrategyLoader.load_strategy_class specOk fp out).cls.isSome
      ↔ (StrategyLoader.load_strategy_class specOk fp out).error = none)
    ∧ (∀ e, out = .raised e → specOk = true →
        StrategyLoader.load_strategy_class specOk fp out
          = ⟨none, some ("Loading failed: " ++ e)⟩)
    ∧ (∀ l, out = .ok l → specOk = true →
        ((StrategyLoader.load_strategy_class specOk fp out).error
            = some "No strategy class found" ↔
          l = []))
    ∧ (∀ l x rest, out = .ok l → specOk = true → l = x :: rest →
        StrategyLoader.findStrategyClass l none = none →
        StrategyLoader.load_strategy_class specOk fp out
          = ⟨none, some ("Strategy class not found, found class: " ++ x.clsName ++
              ". Please ensure class name is Strategy.")⟩)
    ∧ (∀ l c, out = .ok l → specOk = true →
        StrategyLoader.findStrategyClass l none = some c → c.clsName ≠ "Strategy" →
        StrategyLoader.load_strategy_class specOk fp out
          = ⟨none, some ("Found class name is not 'Strategy', but '" ++ c.clsName ++
              "'. Please ensure class name is Strategy.")⟩)
    ∧ (∀ c, (StrategyLoader.load_strategy_class specOk fp out).cls = some c →
        ∃ l, out = .ok l ∧ c ∈ l ∧ c.isStrategySubclass = true
          ∧ c.clsName = "Strategy"
          ∧ (StrategyLoader.load_strategy_class specOk fp out).error = none) := by
  refine ⟨?_, ?_, ?_, ?_, ?_, ?_⟩
  · unfold StrategyLoader.load_strategy_class
    cases specOk with
    | false => simp
    | true =>
      cases out with
      | raised e => simp
      | ok classes =>
        simp only [Bool.not_true, Bool.false_eq_true, if_false, ite_false]
        cases hf : StrategyLoader.findStrategyClass classes none with
        | none =>
          cases classes with
          | nil => simp
          | cons x rest => simp
        | some c =>
          by_cases hn : c.clsName = "Strategy"
          · simp [hn]
          · simp [hn]
  · intro e hout hspec
    subst hout; subst hspec
    rfl
  · intro l hout hspec
    subst hout; subst hspec
    unfold StrategyLoader.load_strategy_class
    simp only [Bool.not_true, Bool.false_eq_true, if_false, ite_false]
    cases hf : StrategyLoader.findStrategyClass l none with
    | none =>
      cases l with
      | nil => simp
      | cons x rest =>
        simp only [Option.some.injEq]
        constructor
        · intro h
          exfalso
          have h2 := congrArg String.length h
          rw [String.length_append, String.length_append] at h2
          have e1 : ("Strategy class not found, found class: ").length = 39 := rfl
          have e2 : (". Please ensure class name is Strategy.").length = 39 := rfl
          have e3 : ("No strategy class found").length = 23 := rfl
          omega
        · intro h
          cases h
    | some c =>
      constructor
      · intro h
        by_cases hn : c.clsName = "Strategy"
        · simp [hn] at h
        · simp only [hn, ne_eq, not_false_eq_true, if_true, ite_true,
            Option.some.injEq] at h
          exfalso
          have h2 := congrArg String.length h
          rw [String.length_append, String.length_append] at h2
          have e1 : ("Found class name is not 'Strategy', but '").length = 41 := rfl
          have e2 : ("'. Please ensure class name is Strategy.").length = 40 := rfl
          have e3 : ("No strategy class found").length = 23 := rfl
          omega
      · intro h
        subst h
        simp [StrategyLoader.findStrategyClass] at hf
  · intro l x rest hout hspec hl hf
    subst hout; subst hspec; subst hl
    unfold StrategyLoader.load_strategy_class
    simp only [Bool.not_true, Bool.false_eq_true, if_false, ite_false]
    rw [hf]
  · intro l c hout hspec hf hn
    subst hout; subst hspec
    unfold StrategyLoader.load_strategy_class
    simp only [Bool.not_true, Bool.false_eq_true, if_false, ite_false]
    rw [hf]
    simp [hn]
  · intro c h
    cases specOk with
    | false => simp [StrategyLoader.load_strategy_class] at h
    | true =>
      cases out with
      | raised e => simp [StrategyLoader.load_strategy_class] at h
      | ok classes =>
        refine ⟨classes, rfl, ?_⟩
        cases hf : StrategyLoader.findStrategyClass classes none with
        | none =>
          exfalso
          unfold StrategyLoader.load_strategy_class at h
          simp only [Bool.not_true, Bool.false_eq_true, if_false, ite_false] at h
          rw [hf] at h
          cases classes with
          | nil => simp at h
          | cons x rest => simp at h
        | some c2 =>
          unfold StrategyLoader.load_strategy_class at h ⊢
          simp only [Bool.not_true, Bool.false_eq_true, if_false, ite_false] at h ⊢
          rw [hf] at h ⊢
          by_cases hn : c2.clsName = "Strategy"
          · simp only [hn, ne_eq, not_true_eq_false, ite_false, if_false,
              Option.some.injEq] at h ⊢
            subst h
            rcases findStrategyClass_spec classes none c2 hf with ⟨hm, hs⟩ | habs
            · exact ⟨hm, hs, hn, trivial⟩
            · simp [StrategyLoader.findStrategyClass] at habs
          · simp [hn] at h

/-- Witness for C8 (amended) at concrete inputs: a raised execution
fault is wrapped, an empty namespace yields the no-strategy error, and a
properly named candidate is returned with no error. -/
theorem c8_loader_witness :
    StrategyLoader.load_strategy_class true "a.py" (.raised "boom")
      = ⟨none, some "Loading failed: boom"⟩
    ∧ ((StrategyLoader.load_strategy_class true "a.py" (.ok [])).error
        = some "No strategy class found" ↔ ([] : List NSClass) = [])
    ∧ (StrategyLoader.load_strategy_class true "b.py"
        (.ok [NSClass.mk "Strategy" "Strategy" true])
      = ⟨none, some ("Strategy class not found, found class: Strategy. " ++
          "Please ensure class name is Strategy.")⟩
      ∨ ∃ l, ExecOutcome.ok [NSClass.mk "Strategy" "Strategy" true] = ExecOutcome.ok l
          ∧ NSClass.mk "Strategy" "Strategy" true ∈ l) := by
  refine ⟨(c8_loader true "a.py" (.raised "boom")).2.1 "boom" rfl rfl,
    (c8_loader true "a.py" (.ok [])).2.2.1 [] rfl rfl, Or.inr ?_⟩
  obtain ⟨l, hl, hm, _, _, _⟩ :=
    (c8_loader true "b.py" (.ok [NSClass.mk "Strategy" "Strategy" true])).2.2.2.2.2
      (NSClass.mk "Strategy" "Strategy" true) rfl
  exact ⟨l, hl, hm⟩
